import Mathlib

/-!
Shallow embedding of the SafeRide client-side authentication/session
lifecycle: the `TokenStorage` utilities and the `useAuth` hook from
`src/saferide-frontend/src/hooks/useAuth.ts`, the `ApiService` token and
header logic from `src/saferide-frontend/src/services/apiService.ts`, and
the `UserService` authentication calls from
`src/saferide-frontend/src/services/userService.ts`.

JavaScript-specific behaviour that the source relies on is modelled
explicitly: string truthiness (`""` and `null`/`undefined` are falsy), the
`||` fallback chain, `parseInt`, and the fact that a comparison against
`NaN` is false.
-/

namespace SafeRide

/-- JS truthiness of a `string | null | undefined` value: falsy exactly when
absent or the empty string. -/
def jsTruthy : Option String → Bool
  | none => false
  | some s => !(s == "")

/-- JS `a || d` where `a : string | null | undefined` and `d` is a string:
returns `a` when it is truthy, else the fallback `d`. -/
def jsOrString (a : Option String) (d : String) : String :=
  match a with
  | none => d
  | some s => if s == "" then d else s

/-- Value of a character as a digit in the given base, if it is one
(JS `parseInt` accepts `0`-`9`, `a`-`z`, `A`-`Z` up to the base). -/
def digitVal (base : Nat) (c : Char) : Option Nat :=
  let v :=
    if '0' ≤ c ∧ c ≤ '9' then some (c.toNat - '0'.toNat)
    else if 'a' ≤ c ∧ c ≤ 'z' then some (c.toNat - 'a'.toNat + 10)
    else if 'A' ≤ c ∧ c ≤ 'Z' then some (c.toNat - 'A'.toNat + 10)
    else none
  match v with
  | some d => if d < base then some d else none
  | none => none

/-- Parse the maximal prefix of digits in the given base; `seen` records
whether at least one digit has been consumed. `none` models JS `NaN`
(no digit at all). -/
def parseDigits (base : Nat) : List Char → Nat → Bool → Option Nat
  | [], acc, seen => if seen then some acc else none
  | c :: rest, acc, seen =>
    match digitVal base c with
    | some d => parseDigits base rest (acc * base + d) true
    | none => if seen then some acc else none

/-- JS `parseInt(s)` with no radix argument: skip leading whitespace, read an
optional sign, detect a `0x`/`0X` hexadecimal prefix, then parse the maximal
digit prefix. `none` models the `NaN` result. -/
def jsParseInt (s : String) : Option Int :=
  let cs := s.toList.dropWhile (·.isWhitespace)
  let signed : Int × List Char :=
    match cs with
    | '-' :: rest => (-1, rest)
    | '+' :: rest => (1, rest)
    | _ => (1, cs)
  let body : Option Nat :=
    match signed.2 with
    | '0' :: 'x' :: rest => parseDigits 16 rest 0 false
    | '0' :: 'X' :: rest => parseDigits 16 rest 0 false
    | rest => parseDigits 10 rest 0 false
  body.map (fun n => signed.1 * (n : Int))

/-- The two localStorage keys used by `TokenStorage`: `authToken` and
`authTimestamp`. `none` models an absent key. -/
structure Storage where
  authToken : Option String
  authTimestamp : Option String
deriving DecidableEq

namespace TokenStorage

/-- `TokenStorage.saveToken`: writes the token and `Date.now().toString()`. -/
def saveToken (s : Storage) (token : String) (now : Int) : Storage :=
  let _ := s
  { authToken := some token, authTimestamp := some (toString now) }

/-- `TokenStorage.getToken`: reads the `authToken` key. -/
def getToken (s : Storage) : Option String :=
  s.authToken

/-- `TokenStorage.clearToken`: removes both keys. -/
def clearToken (s : Storage) : Storage :=
  let _ := s
  { authToken := none, authTimestamp := none }

/-- `maxAge = 24 * 60 * 60 * 1000` milliseconds. -/
def maxAge : Int := 24 * 60 * 60 * 1000

/-- `TokenStorage.isTokenExpired`: true when the `authTimestamp` key is absent
or empty (`!timestamp`), else compares `Date.now() - parseInt(timestamp)`
against `maxAge` with strict `>`. When `parseInt` yields `NaN` the comparison
`NaN > maxAge` is false in JS, so the function returns false. -/
def isTokenExpired (s : Storage) (now : Int) : Bool :=
  match s.authTimestamp with
  | none => true
  | some ts =>
    if ts == "" then true
    else
      match jsParseInt ts with
      | none => false
      | some t => decide (now - t > maxAge)

end TokenStorage

/-- Runtime user object as delivered by the backend. The TS `User` interface
declares `id`, `email`, `password`, `name`, an optional `token` and further
optional fields; at runtime the `password` and `token` properties may be
absent, so both are modelled as `Option`. -/
structure UserObj where
  id : String
  email : String
  name : String
  password : Option String
  token : Option String
deriving DecidableEq

/-- `delete userWithoutPassword.password`: removes the `password` property
from the user object before it is stored in session state. -/
def stripPassword (u : UserObj) : UserObj :=
  { u with password := none }

/-- The `AuthState` held by `useAuth` via `useState`. -/
structure AuthState where
  user : Option UserObj
  token : Option String
  isLoading : Bool
  error : Option String
deriving DecidableEq

/-- `isAuthenticated = Boolean(authState.user && authState.token)`: an object
is always truthy, a string is truthy exactly when non-empty. -/
def isAuthenticated (s : AuthState) : Bool :=
  s.user.isSome && jsTruthy s.token

/-- The `AuthResponse` returned by `UserService.authenticateUser`. -/
structure AuthResponse where
  success : Bool
  message : String
  user : Option UserObj
  token : Option String
deriving DecidableEq

/-- The error body of a non-2xx login response, after `response.json()`:
`detail` may be absent (and the whole body is absent when JSON parsing
failed, which the source turns into `{}`). -/
structure ErrorBody where
  detail : Option String
deriving DecidableEq

/-- Outcome of the `POST /api/auth/login` fetch as observed by
`UserService.authenticateUser`. -/
inductive LoginBackend where
  /-- 2xx with a JSON body carrying optional `access_token` and `user`. -/
  | ok2xx (access_token : Option String) (user : Option UserObj)
  /-- non-2xx; the body is `none` when it was not parseable JSON. -/
  | non2xx (status : Nat) (body : Option ErrorBody)
  /-- the fetch itself threw (network failure). -/
  | throwNet
deriving DecidableEq

/-- `UserService.authenticateUser`: wraps the login fetch. A non-2xx response
becomes `{success: false, message: detail || 'Login failed'}`; a thrown fetch
is caught and becomes `{success: false, message: 'Network error during
login'}`; a 2xx response becomes `{success: true, message: 'Login
successful'}` with the body's `access_token` and `user`. It never throws. -/
def authenticateUser : LoginBackend → AuthResponse
  | .ok2xx tok user =>
    { success := true, message := "Login successful", user := user, token := tok }
  | .non2xx _ body =>
    { success := false
      message := jsOrString (body.bind ErrorBody.detail) "Login failed"
      user := none, token := none }
  | .throwNet =>
    { success := false, message := "Network error during login"
      user := none, token := none }

/-- Outcome of the `GET /api/auth/me` fetch as observed by
`UserService.getCurrentUser`. -/
inductive MeBackend where
  | ok2xx (u : UserObj)
  | non2xx
  | throwNet
deriving DecidableEq

/-- `UserService.getCurrentUser`: returns the user on 2xx, `null` on a
non-2xx response, and `null` when the fetch throws (the error is caught and
logged). It never throws. -/
def getCurrentUser : MeBackend → Option UserObj
  | .ok2xx u => some u
  | .non2xx => none
  | .throwNet => none

/-- The combined client state the session operations act on: the `useAuth`
state, the localStorage-backed `TokenStorage`, and the `ApiService`
in-memory token. -/
structure AppState where
  auth : AuthState
  storage : Storage
  apiToken : Option String
deriving DecidableEq

/-- The initial client state: `useAuth` starts with
`{user: null, token: null, isLoading: true, error: null}` and the
`ApiService` constructor leaves its token `null`; localStorage holds
whatever it held. -/
def initAppState (storage : Storage) : AppState :=
  { auth := { user := none, token := none, isLoading := true, error := none }
    storage := storage
    apiToken := none }

/-- The `login` callback of `useAuth`. It first sets
`isLoading: true, error: null`, awaits `authenticateUser`, then on
`response.success && response.user` computes
`token = response.token || response.user.token || 'mock-token-123'`,
persists it, sets it on the `ApiService` and stores the password-stripped
user; otherwise it clears `user`/`token` and sets
`error = response.message || 'Authentication failed'`. The surrounding
`try/catch` makes it total: every backend outcome yields a state. -/
def login (s : AppState) (now : Int) (backend : LoginBackend) : AppState :=
  let response := authenticateUser backend
  match response.success, response.user with
  | true, some u =>
    let token := jsOrString response.token (jsOrString u.token "mock-token-123")
    { auth := { user := some (stripPassword u), token := some token
                isLoading := false, error := none }
      storage := TokenStorage.saveToken s.storage token now
      apiToken := some token }
  | _, _ =>
    { auth := { user := none, token := none, isLoading := false
                error := some (jsOrString (some response.message) "Authentication failed") }
      storage := s.storage
      apiToken := s.apiToken }

/-- The `logout` callback of `useAuth`: `userService.logout()` may throw
(its fetch is not guarded inside `UserService`), but `useAuth` catches the
error and the `finally` block always clears `TokenStorage`, the `ApiService`
token and the session state. `backendThrows` records whether the backend
call failed; it does not influence the result. -/
def logout (s : AppState) (backendThrows : Bool) : AppState :=
  let _ := backendThrows
  { auth := { user := none, token := none, isLoading := false, error := none }
    storage := TokenStorage.clearToken s.storage
    apiToken := none }

/-- The `updateUser` callback of `useAuth`: replaces only the `user` field. -/
def updateUser (s : AppState) (u : UserObj) : AppState :=
  { s with auth := { s.auth with user := some u } }

/-- The `refreshUser` callback of `useAuth`: re-fetches `/me`; on success it
stores the password-stripped user and keeps the existing token, on failure it
clears `TokenStorage`, the `ApiService` token and the session. -/
def refreshUser (s : AppState) (me : MeBackend) : AppState :=
  match getCurrentUser me with
  | some u =>
    { s with auth := { user := some (stripPassword u), token := s.auth.token
                       isLoading := false, error := none } }
  | none =>
    { auth := { user := none, token := none, isLoading := false, error := none }
      storage := TokenStorage.clearToken s.storage
      apiToken := none }

/-- The `setError` callback of `useAuth`. -/
def setError (s : AppState) (e : String) : AppState :=
  { s with auth := { s.auth with error := some e } }

/-- The `clearError` callback of `useAuth`. -/
def clearError (s : AppState) : AppState :=
  { s with auth := { s.auth with error := none } }

/-- The `useEffect` startup resolution of `useAuth`, together with a flag
recording whether the backend `/me` call was issued. If the stored token is
absent, empty (`!storedToken`) or expired, both stores are cleared and the
session settles unauthenticated without any backend call; otherwise the token
is set on the `ApiService` and `/me` decides the outcome. -/
def startup (s : AppState) (now : Int) (me : MeBackend) : AppState × Bool :=
  let cleared : AppState :=
    { auth := { user := none, token := none, isLoading := false, error := none }
      storage := TokenStorage.clearToken s.storage
      apiToken := none }
  match TokenStorage.getToken s.storage with
  | none => (cleared, false)
  | some tok =>
    if tok == "" then (cleared, false)
    else if TokenStorage.isTokenExpired s.storage now then (cleared, false)
    else
      match getCurrentUser me with
      | some u =>
        ({ auth := { user := some (stripPassword u), token := some tok
                     isLoading := false, error := none }
           storage := s.storage
           apiToken := some tok }, true)
      | none => (cleared, true)

/-- Session-manager events: each exposed `useAuth` operation together with
the observed backend outcome and clock value it ran against. -/
inductive Event where
  | startupEv (now : Int) (me : MeBackend)
  | loginEv (now : Int) (b : LoginBackend)
  | logoutEv (backendThrows : Bool)
  | updateUserEv (u : UserObj)
  | refreshEv (me : MeBackend)
  | setErrorEv (e : String)
  | clearErrorEv
deriving DecidableEq

/-- One step of the session manager. -/
def step (s : AppState) : Event → AppState
  | .startupEv now me => (startup s now me).1
  | .loginEv now b => login s now b
  | .logoutEv bt => logout s bt
  | .updateUserEv u => updateUser s u
  | .refreshEv me => refreshUser s me
  | .setErrorEv e => setError s e
  | .clearErrorEv => clearError s

/-- Run the session manager from the initial state over a list of events.
Every reachable state is `run storage evs` for some initial storage contents
and event list. -/
def run (storage : Storage) (evs : List Event) : AppState :=
  evs.foldl step (initAppState storage)

/-- A sample user object whose backend payload carries a password. -/
def sampleUser : UserObj :=
  { id := "1", email := "admin@saferide.com", name := "Admin"
    password := some "x", token := none }

/-- Headers attached by `ApiService.getHeaders`: only the two fields the
source ever sets. -/
structure Headers where
  contentType : Option String
  authorization : Option String
deriving DecidableEq

/-- `ApiService.getHeaders`: `Content-Type: application/json` always;
`Authorization: Bearer <token>` only when the in-memory token is truthy
(`if (this.token)`), i.e. non-null and non-empty. -/
def getHeaders (token : Option String) : Headers :=
  { contentType := some "application/json"
    authorization :=
      match token with
      | some t => if t == "" then none else some ("Bearer " ++ t)
      | none => none }

/-- Message of the error thrown by `ApiService.request` on a non-ok response:
`errorData.detail || 'HTTP error! status: <status>'`, where `errorData` is
the parsed body or `{}` when parsing failed (modelled by `body = none`). -/
def requestError (status : Nat) (body : Option ErrorBody) : String :=
  jsOrString (body.bind ErrorBody.detail) ("HTTP error! status: " ++ toString status)

example : jsParseInt "0" = some 0 := by decide
example : jsParseInt "abc" = none := by decide
example : jsParseInt " -42xyz" = some (-42) := by decide
example : jsParseInt "0x10" = some 16 := by decide
example : TokenStorage.isTokenExpired ⟨some "tok", some "0"⟩ 86400000 = false := by decide
example : TokenStorage.isTokenExpired ⟨some "tok", some "0"⟩ 86400001 = true := by decide
example : TokenStorage.isTokenExpired ⟨some "tok", none⟩ 5 = true := by decide
example : TokenStorage.isTokenExpired ⟨some "tok", some "zz"⟩ 999999999 = false := by decide

/-- Characterisation of `isAuthenticated` in terms of the two fields: true
exactly when the user object is present and the token is a non-empty
string. -/
theorem isAuthenticated_iff_fields (a : AuthState) :
    isAuthenticated a = true ↔
      (a.user.isSome = true ∧ ∃ t, a.token = some t ∧ t ≠ "") := by
  obtain ⟨u, t, l, e⟩ := a
  cases u <;> cases t <;> simp [isAuthenticated, jsTruthy]

/-- `jsOrString` never produces the empty string when its fallback is
non-empty: it returns either a non-empty first argument or the fallback. -/
theorem jsOrString_ne_empty (a : Option String) (d : String) (hd : d ≠ "") :
    jsOrString a d ≠ "" := by
  unfold jsOrString
  cases a with
  | none => exact hd
  | some s =>
    by_cases h : s == ""
    · simpa [h] using hd
    · simpa [h] using (by simpa using h : s ≠ "")

/-- Every session-manager step keeps the `ApiService` token away from the
empty string: tokens set at startup pass the `!storedToken` guard, and login
tokens come from a `||` chain ending in the non-empty literal. -/
theorem step_apiToken_ne_empty (s : AppState) (e : Event)
    (hs : s.apiToken ≠ some "") : (step s e).apiToken ≠ some "" := by
  cases e with
  | startupEv now me =>
    unfold step startup
    cases htok : TokenStorage.getToken s.storage with
    | none => simp
    | some tok =>
      by_cases he : tok == ""
      · simp [he]
      · by_cases hex : TokenStorage.isTokenExpired s.storage now
        · simp [he, hex]
        · cases me with
          | ok2xx u =>
            simp [he, hex, getCurrentUser]
            simp at he
            exact he
          | non2xx => simp [he, hex, getCurrentUser]
          | throwNet => simp [he, hex, getCurrentUser]
  | loginEv now b =>
    unfold step login
    cases b with
    | ok2xx tok user =>
      cases user with
      | none => simpa [authenticateUser] using hs
      | some u =>
        simp [authenticateUser]
        exact jsOrString_ne_empty _ _ (jsOrString_ne_empty _ _ (by decide))
    | non2xx st body => simpa [authenticateUser] using hs
    | throwNet => simpa [authenticateUser] using hs
  | logoutEv bt => simp [step, logout]
  | updateUserEv u => simpa [step, updateUser] using hs
  | refreshEv me =>
    cases me with
    | ok2xx u => simpa [step, refreshUser, getCurrentUser] using hs
    | non2xx => simp [step, refreshUser, getCurrentUser]
    | throwNet => simp [step, refreshUser, getCurrentUser]
  | setErrorEv e => simpa [step, setError] using hs
  | clearErrorEv => simpa [step, clearError] using hs

/-- In every reachable state the `ApiService` token is never the empty
string: it is either absent or a non-empty bearer string. -/
theorem run_apiToken_ne_empty (storage : Storage) (evs : List Event) :
    (run storage evs).apiToken ≠ some "" := by
  have general : ∀ (l : List Event) (s : AppState),
      s.apiToken ≠ some "" → (l.foldl step s).apiToken ≠ some "" := by
    intro l
    induction l with
    | nil => exact fun s hs => hs
    | cons e rest ih => exact fun s hs => ih (step s e) (step_apiToken_ne_empty s e hs)
  exact general evs (initAppState storage) (by simp [initAppState])

/-- C1 (counterexample): the claim says the session state is never partially
authenticated, but the state reached from a fresh start by a single
`updateUser` call has a populated `user` and a cleared `token`: `updateUser`
replaces only the `user` field and leaves `token` as it was. -/
theorem C1_partial_auth_counterexample :
    (run { authToken := none, authTimestamp := none }
        [Event.updateUserEv sampleUser]).auth.user.isSome = true ∧
    (run { authToken := none, authTimestamp := none }
        [Event.updateUserEv sampleUser]).auth.token = none ∧
    isAuthenticated (run { authToken := none, authTimestamp := none }
        [Event.updateUserEv sampleUser]).auth = false := by
  refine ⟨rfl, rfl, rfl⟩

/-- C1 (amended): in every reachable session state, `isAuthenticated` is true
if and only if both `user` and `token` are present and the token is
non-empty; partially authenticated states (user populated, token cleared)
are reachable via `updateUser`, and in them `isAuthenticated` is false. -/
theorem C1_state_consistency (storage : Storage) (evs : List Event) :
    isAuthenticated (run storage evs).auth = true ↔
      ((run storage evs).auth.user.isSome = true ∧
       ∃ t, (run storage evs).auth.token = some t ∧ t ≠ "") :=
  isAuthenticated_iff_fields (run storage evs).auth

/-- C2 (counterexample): at the boundary where `now - t` equals exactly
24 hours (timestamp "0", now = 86400000 ms), `isTokenExpired` returns
false — the strict `>` comparison makes the boundary NOT expired, while the
claim says the boundary reports expired. -/
theorem C2_boundary_counterexample :
    TokenStorage.isTokenExpired
      { authToken := some "tok2", authTimestamp := some "0" } 86400000 = false := by
  decide

/-- C2 (amended): for every stored timestamp `t`, `isTokenExpired` returns
true when no timestamp is stored, and otherwise returns exactly the value of
`now - t > 24h`; in particular the boundary `now - t = 24h` reports NOT
expired (strict `>`). -/
theorem C2_expiry_law (a : Option String) (ts : String) (t now : Int)
    (hts : jsParseInt ts = some t) (hne : ts ≠ "") :
    TokenStorage.isTokenExpired { authToken := a, authTimestamp := none } now = true ∧
    TokenStorage.isTokenExpired { authToken := a, authTimestamp := some ts } now =
      decide (now - t > TokenStorage.maxAge) := by
  refine ⟨rfl, ?_⟩
  unfold TokenStorage.isTokenExpired
  simp [hne, hts]

/-- C2 witness: with timestamp "0" and now one millisecond past 24 hours the
amended law evaluates to expired. -/
theorem C2_expiry_law_witness :
    TokenStorage.isTokenExpired
      { authToken := some "tok", authTimestamp := none } 86400001 = true ∧
    TokenStorage.isTokenExpired
      { authToken := some "tok", authTimestamp := some "0" } 86400001 =
      decide ((86400001 : Int) - 0 > TokenStorage.maxAge) :=
  C2_expiry_law (some "tok") "0" 0 86400001 (by decide) (by decide)

/-- C3: for every successful login or refreshUser call whose backend user
payload contains a password field, the user object stored in session state is
the password-stripped one, and the stripped object carries no password. -/
theorem C3_password_stripped (s : AppState) (now : Int) (tok : Option String)
    (u : UserObj) (p : String) (_hp : u.password = some p) :
    (login s now (LoginBackend.ok2xx tok (some u))).auth.user = some (stripPassword u) ∧
    (refreshUser s (MeBackend.ok2xx u)).auth.user = some (stripPassword u) ∧
    (stripPassword u).password = none := by
  exact ⟨rfl, rfl, rfl⟩

/-- C3 witness: the sample user carries password "x" and both operations
store the stripped object. -/
theorem C3_password_stripped_witness :
    (login (initAppState { authToken := none, authTimestamp := none }) 0
        (LoginBackend.ok2xx (some "tok1") (some sampleUser))).auth.user =
      some (stripPassword sampleUser) ∧
    (refreshUser (initAppState { authToken := none, authTimestamp := none })
        (MeBackend.ok2xx sampleUser)).auth.user = some (stripPassword sampleUser) ∧
    (stripPassword sampleUser).password = none :=
  C3_password_stripped (initAppState { authToken := none, authTimestamp := none })
    0 (some "tok1") sampleUser "x" rfl

/-- C4: `login` is a total function of the backend outcome (it never throws
to its caller), and when the backend rejects with a non-2xx response the
session stays unauthenticated — user and token null — with `error` set to
the body's `detail` message when present and non-empty, else the fallback
"Login failed". -/
theorem C4_login_rejected (s : AppState) (now : Int) (st : Nat) (d : String)
    (hd : d ≠ "") :
    (login s now (LoginBackend.non2xx st (some { detail := some d }))).auth.user = none ∧
    (login s now (LoginBackend.non2xx st (some { detail := some d }))).auth.token = none ∧
    (login s now (LoginBackend.non2xx st (some { detail := some d }))).auth.error = some d ∧
    (login s now (LoginBackend.non2xx st none)).auth.error = some "Login failed" := by
  refine ⟨rfl, rfl, ?_, rfl⟩
  simp [login, authenticateUser, jsOrString, hd]

/-- C4 witness (Scenario E): a 401 with detail "Invalid credentials" leaves
the session unauthenticated with exactly that error message. -/
theorem C4_login_rejected_witness :
    (login (initAppState { authToken := none, authTimestamp := none }) 0
        (LoginBackend.non2xx 401 (some { detail := some "Invalid credentials" }))).auth.user = none ∧
    (login (initAppState { authToken := none, authTimestamp := none }) 0
        (LoginBackend.non2xx 401 (some { detail := some "Invalid credentials" }))).auth.token = none ∧
    (login (initAppState { authToken := none, authTimestamp := none }) 0
        (LoginBackend.non2xx 401 (some { detail := some "Invalid credentials" }))).auth.error =
      some "Invalid credentials" ∧
    (login (initAppState { authToken := none, authTimestamp := none }) 0
        (LoginBackend.non2xx 401 none)).auth.error = some "Login failed" :=
  C4_login_rejected (initAppState { authToken := none, authTimestamp := none })
    0 401 "Invalid credentials" (by decide)

/-- C5: when durable storage holds no token or an expired one, the startup
resolution clears the Token Store and the API Client token and settles
unauthenticated with no error and without calling the backend. -/
theorem C5_startup_clears (s : AppState) (now : Int) (me : MeBackend)
    (h : TokenStorage.getToken s.storage = none ∨
         TokenStorage.isTokenExpired s.storage now = true) :
    startup s now me =
      ({ auth := { user := none, token := none, isLoading := false, error := none }
         storage := { authToken := none, authTimestamp := none }
         apiToken := none }, false) := by
  unfold startup
  rcases h with h | h
  · rw [h]
    simp [TokenStorage.clearToken]
  · cases htok : TokenStorage.getToken s.storage with
    | none => simp [TokenStorage.clearToken]
    | some tok =>
      by_cases he : tok == ""
      · simp [he, TokenStorage.clearToken]
      · simp [he, h, TokenStorage.clearToken]

/-- C5 witness (Scenario C): storage holding token "tok2" issued at time 0,
inspected 25 hours (90000000 ms) later, is cleared with no backend call; the
`MeBackend` argument is irrelevant. -/
theorem C5_startup_clears_witness :
    startup (initAppState { authToken := some "tok2", authTimestamp := some "0" })
        90000000 MeBackend.non2xx =
      ({ auth := { user := none, token := none, isLoading := false, error := none }
         storage := { authToken := none, authTimestamp := none }
         apiToken := none }, false) :=
  C5_startup_clears
    (initAppState { authToken := some "tok2", authTimestamp := some "0" })
    90000000 MeBackend.non2xx (Or.inr (by decide))

/-- C6: `logout` is idempotent — a second call leaves the state produced by
the first unchanged — and regardless of whether the backend logout call
failed (it never throws; the failure is ignored) it clears the session user
and token, the Token Store and the API Client token. -/
theorem C6_logout_idempotent (s : AppState) (b1 b2 : Bool) :
    logout (logout s b1) b2 = logout s b1 ∧
    (logout s b1).auth.user = none ∧
    (logout s b1).auth.token = none ∧
    (logout s b1).storage = { authToken := none, authTimestamp := none } ∧
    (logout s b1).apiToken = none := by
  exact ⟨rfl, rfl, rfl, rfl, rfl⟩

/-- C7 (counterexample): when the login transport throws, the session error
is "Network error during login" — the catch inside
`UserService.authenticateUser` — and not the login hook's generic
"An unexpected error occurred" string the claim describes. -/
theorem C7_transport_counterexample :
    (login (initAppState { authToken := none, authTimestamp := none }) 0
        LoginBackend.throwNet).auth.error = some "Network error during login" ∧
    "Network error during login" ≠ "An unexpected error occurred" :=
  ⟨rfl, by decide⟩

/-- C7 (amended): a transport failure during login is caught inside
`UserService.authenticateUser` and surfaces as the error string
"Network error during login" with user and token cleared (the login hook's
own "An unexpected error occurred" catch is not reached), while the same
transport failure during who-am-I and logout is silently treated as failure
with no error string surfaced. -/
theorem C7_transport_failures (s : AppState) (now : Int) (bt : Bool) :
    (login s now LoginBackend.throwNet).auth.error = some "Network error during login" ∧
    (login s now LoginBackend.throwNet).auth.user = none ∧
    (login s now LoginBackend.throwNet).auth.token = none ∧
    getCurrentUser MeBackend.throwNet = none ∧
    (refreshUser s MeBackend.throwNet).auth.error = none ∧
    (logout s bt).auth.error = none := by
  exact ⟨rfl, rfl, rfl, rfl, rfl, rfl⟩

/-- C8: in every reachable client state, requests carry
`Content-Type: application/json`; the `Authorization` header is
`Bearer <token>` exactly when the in-memory token is present (and in
particular absent after `clearToken`); and a non-ok response produces the
body's `detail` message when present and non-empty, else the generic
"HTTP error! status: <code>" message. -/
theorem C8_headers_and_errors (storage : Storage) (evs : List Event)
    (st : Nat) (d : String) (hd : d ≠ "") :
    (getHeaders (run storage evs).apiToken).contentType = some "application/json" ∧
    (getHeaders (run storage evs).apiToken).authorization =
      (run storage evs).apiToken.map (fun t => "Bearer " ++ t) ∧
    (getHeaders none).authorization = none ∧
    requestError st (some { detail := some d }) = d ∧
    requestError st none = "HTTP error! status: " ++ toString st := by
  refine ⟨rfl, ?_, rfl, ?_, rfl⟩
  · have hne := run_apiToken_ne_empty storage evs
    cases htok : (run storage evs).apiToken with
    | none => rfl
    | some t =>
      have ht : t ≠ "" := fun h => hne (by rw [htok, h])
      simp [getHeaders, ht]
  · simp [requestError, jsOrString, hd]

/-- C8 witness: after a successful login with access token "tok1" the
headers carry `Bearer tok1`, and a 404 whose body holds detail "Not found"
produces exactly that message. -/
theorem C8_headers_and_errors_witness :
    (getHeaders (run { authToken := none, authTimestamp := none }
        [Event.loginEv 0 (LoginBackend.ok2xx (some "tok1") (some sampleUser))]).apiToken).contentType =
      some "application/json" ∧
    (getHeaders (run { authToken := none, authTimestamp := none }
        [Event.loginEv 0 (LoginBackend.ok2xx (some "tok1") (some sampleUser))]).apiToken).authorization =
      (run { authToken := none, authTimestamp := none }
        [Event.loginEv 0 (LoginBackend.ok2xx (some "tok1") (some sampleUser))]).apiToken.map
        (fun t => "Bearer " ++ t) ∧
    (getHeaders none).authorization = none ∧
    requestError 404 (some { detail := some "Not found" }) = "Not found" ∧
    requestError 404 none = "HTTP error! status: " ++ toString 404 :=
  C8_headers_and_errors { authToken := none, authTimestamp := none }
    [Event.loginEv 0 (LoginBackend.ok2xx (some "tok1") (some sampleUser))]
    404 "Not found" (by decide)

/-- C9: a successful login whose response carries no access token — neither
`response.token` nor `response.user.token` — still authenticates the
session, and the session token, the persisted token and the API Client token
all become the literal fallback "mock-token-123". -/
theorem C9_mock_token_fallback (s : AppState) (now : Int) (u : UserObj)
    (hu : u.token = none) :
    (login s now (LoginBackend.ok2xx none (some u))).auth.token = some "mock-token-123" ∧
    (login s now (LoginBackend.ok2xx none (some u))).auth.user = some (stripPassword u) ∧
    isAuthenticated (login s now (LoginBackend.ok2xx none (some u))).auth = true ∧
    (login s now (LoginBackend.ok2xx none (some u))).storage.authToken = some "mock-token-123" ∧
    (login s now (LoginBackend.ok2xx none (some u))).apiToken = some "mock-token-123" := by
  simp [login, authenticateUser, jsOrString, hu, isAuthenticated, jsTruthy,
    TokenStorage.saveToken]

/-- C9 witness: the sample user payload has no token field, so a tokenless
success authenticates with "mock-token-123" everywhere. -/
theorem C9_mock_token_fallback_witness :
    (login (initAppState { authToken := none, authTimestamp := none }) 0
        (LoginBackend.ok2xx none (some sampleUser))).auth.token = some "mock-token-123" ∧
    (login (initAppState { authToken := none, authTimestamp := none }) 0
        (LoginBackend.ok2xx none (some sampleUser))).auth.user = some (stripPassword sampleUser) ∧
    isAuthenticated (login (initAppState { authToken := none, authTimestamp := none }) 0
        (LoginBackend.ok2xx none (some sampleUser))).auth = true ∧
    (login (initAppState { authToken := none, authTimestamp := none }) 0
        (LoginBackend.ok2xx none (some sampleUser))).storage.authToken = some "mock-token-123" ∧
    (login (initAppState { authToken := none, authTimestamp := none }) 0
        (LoginBackend.ok2xx none (some sampleUser))).apiToken = some "mock-token-123" :=
  C9_mock_token_fallback (initAppState { authToken := none, authTimestamp := none })
    0 sampleUser rfl

/-- C10: a stored `authTimestamp` that is non-empty but not parseable as a
number (JS `parseInt` yields `NaN`) makes `isTokenExpired` return false —
the `NaN > maxAge` comparison is false, so a corrupted timestamp counts as
not expired. -/
theorem C10_nan_not_expired (a : Option String) (ts : String) (now : Int)
    (hne : ts ≠ "") (hnan : jsParseInt ts = none) :
    TokenStorage.isTokenExpired { authToken := a, authTimestamp := some ts } now = false := by
  unfold TokenStorage.isTokenExpired
  simp [hne, hnan]

/-- C10 witness: the corrupted timestamp "abc" never counts as expired, even
long after any real 24-hour window. -/
theorem C10_nan_not_expired_witness :
    TokenStorage.isTokenExpired
      { authToken := some "tok", authTimestamp := some "abc" } 999999999999 = false :=
  C10_nan_not_expired (some "tok") "abc" 999999999999 (by decide) (by decide)

end SafeRide
